import Mathlib

/-!
Verification model of `src/app.py` (WeAR Galaxy Streamlit app).

The script is embedded shallowly:

* `SessionState` mirrors `st.session_state` (keys `analysis_text`,
  `messages`, `chat`).
* Each Python statement that mutates the session state, calls the remote
  model, or spawns a worker becomes an `Ev` event; a branch of the script
  is a function producing the list of events it executes together with a
  flag recording whether an uncaught exception aborted the run.
* The text and widgets written to the page become a list of `UiElem`
  values, in script order.
* External calls (`model.generate_content`, `chat.send_message`) are
  parameters of type `CallResult`: the text the call returned, or the
  string of the exception it raised.
-/

namespace WearApp

/-- Decoded pixel buffer, the result of a successful `cv2.imdecode`.
The app never inspects the pixels locally; they are only forwarded to the
remote model. -/
structure Image where
  data : List Nat
deriving DecidableEq, Repr

/-- Outcome of one remote model call: the returned text, or the string of
the exception the call raised (`str(e)` in the `except` handler). -/
inductive CallResult where
  | success (text : String)
  | failure (err : String)
deriving DecidableEq, Repr

/-- One entry of `st.session_state.messages`. -/
structure Msg where
  role : String
  content : String
deriving DecidableEq, Repr

/-- One turn of the history passed to / kept by `model.start_chat`. -/
structure HistoryTurn where
  role : String
  parts : List String
deriving DecidableEq, Repr

/-- The opaque chat handle returned by `model.start_chat`: it carries the
conversation history that `send_message` extends. -/
structure ChatSession where
  history : List HistoryTurn
deriving DecidableEq, Repr

/-- The session-scoped mutable store `st.session_state`. -/
structure SessionState where
  analysis_text : String
  messages : List Msg
  chat : Option ChatSession
deriving DecidableEq, Repr

/-- Events: the session-state writes and external effects a script run
performs, in program order. -/
inductive Ev where
  | setAnalysis (v : String)
  | setMessages (ms : List Msg)
  | appendMessage (m : Msg)
  | setChat (c : ChatSession)
  | chatSend (userText : String) (reply : String)
  | chatSendRaised (userText : String) (err : String)
  | remoteCall (img : Option Image) (prompt : String)
  | spawnWorker
deriving DecidableEq, Repr

/-- Effect of a single event on the session state. `remoteCall` and
`spawnWorker` do not touch the local state. -/
def applyEv (s : SessionState) : Ev → SessionState
  | .setAnalysis v => { s with analysis_text := v }
  | .setMessages ms => { s with messages := ms }
  | .appendMessage m => { s with messages := s.messages ++ [m] }
  | .setChat c => { s with chat := some c }
  | .chatSend u r =>
      { s with chat := s.chat.map fun c =>
          ⟨c.history ++ [⟨"user", [u]⟩, ⟨"model", [r]⟩]⟩ }
  | .chatSendRaised _ _ => s
  | .remoteCall _ _ => s
  | .spawnWorker => s

/-- Replay a list of events over a session state. -/
def applyEvents (s : SessionState) (evs : List Ev) : SessionState :=
  evs.foldl applyEv s

/-- Python truthiness of an optional string (`None` and `""` are falsy). -/
def truthy : Option String → Bool
  | none => false
  | some s => !(s == "")

/-- Python `a or b` on optional strings. -/
def pyOr (a b : Option String) : Option String :=
  if truthy a then a else b

/-- Session-state initialisation block (lines 190-195): each key is given
its default only when absent. -/
structure RawSession where
  analysis_text : Option String
  messages : Option (List Msg)
  chat : Option (Option ChatSession)

/-- The defaults installed by the initialisation block. -/
def initSession (r : RawSession) : SessionState :=
  { analysis_text := r.analysis_text.getD "Analysis will appear here."
  , messages := r.messages.getD []
  , chat := r.chat.getD none }

/-- Session state at the start of a fresh UI session. -/
def initState : SessionState :=
  initSession ⟨none, none, none⟩

/-- Whitespace characters removed by Python `str.strip()`. -/
def isPySpace (c : Char) : Bool :=
  c == ' ' || c == '\t' || c == '\n' || c == '\r' || c == '\x0b' || c == '\x0c'

/-- Python `str.strip()`: drop leading and trailing whitespace. -/
def pyStrip (s : String) : String :=
  ⟨((s.data.dropWhile isPySpace).reverse.dropWhile isPySpace).reverse⟩

/-- True when `pat` occurs at the head of `l`. -/
def charsPrefixAt : List Char → List Char → Bool
  | [], _ => true
  | _ :: _, [] => false
  | a :: as, b :: bs => a == b && charsPrefixAt as bs

/-- True when `pat` occurs somewhere in `l`. -/
def charsContain (pat : List Char) : List Char → Bool
  | [] => pat.isEmpty
  | c :: rest => charsPrefixAt pat (c :: rest) || charsContain pat rest

/-- Substring containment on strings. -/
def strContains (s pat : String) : Bool :=
  charsContain pat.data s.data

/-- The fixed image-classification prompt of `analyze_image_with_gemini`
(triple-quoted literal, lines 202-209). -/
def analysisPrompt : String :=
  "\n    Analyze the face in this image. \n    1. Determine the face shape (e.g., Oval, Round, Square, Heart).\n    2. Based on that shape, provide a concise suggestion for suitable glasses in 15 words or less.\n    Format your response exactly like this:\n    Your Face Shape Is: [Detected Shape]\n    WeAR AI's Suggestion: [Your Suggestion]\n    "

/-- The recommendation prompt template of `get_suggestion_for_shape`
(f-string, lines 219-224). -/
def suggestionPrompt (shape_name : String) : String :=
  "\n    You are a helpful and concise fashion assistant named WeAR AI. My face shape is '" ++ shape_name ++ "'.\n    In 15 words or less, what are the best types of glasses for me?\n    Format your response exactly like this:\n    WeAR AI's Suggestion: [Your Suggestion]\n    "

/-- Body of `analyze_image_with_gemini` (lines 198-215).

`image_frame` is whatever `cv2.imdecode` produced: `none` models the
`None` returned on a failed decode, in which case `cv2.cvtColor` on
line 200 raises before the `try` block and the exception is uncaught
(no event executes, the run crashes).  Otherwise the function writes the
progress string, issues the remote call, and writes either the stripped
response text or the `API Call Failed` string. -/
def analyze_image_with_gemini (image_frame : Option Image) (api : CallResult) :
    List Ev × Bool :=
  match image_frame with
  | none => ([], true)
  | some img =>
    match api with
    | .success text =>
        ([.setAnalysis "Analyzing with AI...",
          .remoteCall (some img) analysisPrompt,
          .setAnalysis (pyStrip text)], false)
    | .failure err =>
        ([.setAnalysis "Analyzing with AI...",
          .remoteCall (some img) analysisPrompt,
          .setAnalysis ("API Call Failed: " ++ err)], false)

/-- Body of `get_suggestion_for_shape` (lines 217-230): progress string,
remote call, then either the two-line result or the `API Call Failed`
string. This function cannot crash the run. -/
def get_suggestion_for_shape (shape_name : String) (api : CallResult) :
    List Ev × Bool :=
  match api with
  | .success text =>
      ([.setAnalysis ("Getting suggestion for " ++ shape_name ++ " face..."),
        .remoteCall none (suggestionPrompt shape_name),
        .setAnalysis ("Your Face Shape Is: " ++ shape_name ++ "\n" ++ pyStrip text)], false)
  | .failure err =>
      ([.setAnalysis ("Getting suggestion for " ++ shape_name ++ " face..."),
        .remoteCall none (suggestionPrompt shape_name),
        .setAnalysis ("API Call Failed: " ++ err)], false)

/-- The system instruction seeded into the chat session (triple-quoted
literal, lines 317-321). -/
def system_instruction : String :=
  "You are a specialized AI fashion assistant for an app called 'WeAR Galaxy'. \n        Your name is WeAR AI. Your ONLY purpose is to answer questions about eyeglass frames, styles, materials, \n        and what frames are suitable for different face shapes. You MUST politely refuse to answer any question that is \n        not related to eyeglasses. If asked an off-topic question, say something like, 'I am the WeAR AI assistant \n        and my expertise is limited to eyeglass frames. How can I help you with glasses today?'"

/-- The chat handle created by `model.start_chat` (lines 322-325): seed
history of one user turn (system instruction) and one model turn. -/
def initialChat : ChatSession :=
  ⟨[⟨"user", [system_instruction]⟩,
    ⟨"model", ["Okay, I understand. I am the WeAR AI, ready to assist with all questions about eyeglass frames."]⟩]⟩

/-- The seed greeting written to `st.session_state.messages` (line 326). -/
def greetingMsg : Msg :=
  ⟨"assistant", "Hello! I am the WeAR AI. How can I help you find the perfect glasses frames today?"⟩

/-- The lazy chat-creation guard (lines 316-326): only when
`st.session_state.chat is None` are the handle and the seed greeting
installed. -/
def chatInitEvents (s : SessionState) : List Ev :=
  match s.chat with
  | none => [.setChat initialChat, .setMessages [greetingMsg]]
  | some _ => []

/-- The Chatbot branch (lines 313-341). `chatPrompt` is the value of
`st.chat_input` (`none` when nothing was submitted; the walrus `if` also
rejects an empty string as falsy). On a submitted prompt the user message
is appended, then `chat.send_message` runs; that call is NOT wrapped in
`try`, so a raising call (`chatSendRaised`) aborts the script run before
the assistant message is displayed or appended. -/
def chatbotBranch (s : SessionState) (chatPrompt : Option String)
    (chatApi : CallResult) : List Ev × Bool :=
  let initEvs := chatInitEvents s
  match chatPrompt with
  | none => (initEvs, false)
  | some p =>
    if p == "" then (initEvs, false)
    else
      match chatApi with
      | .success reply =>
          (initEvs ++ [.appendMessage ⟨"user", p⟩,
                       .chatSend p reply,
                       .appendMessage ⟨"assistant", reply⟩], false)
      | .failure err =>
          (initEvs ++ [.appendMessage ⟨"user", p⟩,
                       .chatSendRaised p err], true)

/-- The Webcam branch (lines 279-287): the Analyze button exists only when
a photo was captured; clicking it decodes the photo and calls
`analyze_image_with_gemini`. `picture` is `none` when no photo was taken;
`some decoded` carries the `cv2.imdecode` result (`none` on decode
failure). -/
def webcamBranch (picture : Option (Option Image)) (clicked : Bool)
    (api : CallResult) : List Ev × Bool :=
  match picture with
  | none => ([], false)
  | some decoded =>
      if clicked then analyze_image_with_gemini decoded api else ([], false)

/-- The Upload Image branch (lines 289-296), same shape as the webcam
branch with a file uploader in place of the camera. -/
def uploadBranch (uploaded : Option (Option Image)) (clicked : Bool)
    (api : CallResult) : List Ev × Bool :=
  match uploaded with
  | none => ([], false)
  | some decoded =>
      if clicked then analyze_image_with_gemini decoded api else ([], false)

/-- The Manual Input branch (lines 298-306): whenever the selectbox holds
anything other than the placeholder, `get_suggestion_for_shape` runs on
this very render pass; there is no button guarding it. -/
def manualBranch (selected_shape : String) (api : CallResult) :
    List Ev × Bool :=
  if selected_shape != "Select a Shape"
  then get_suggestion_for_shape selected_shape api
  else ([], false)

/-- The per-run inputs of one script execution: the radio mode, each
widget's value, whether each button reported a click, and the outcome the
external service would give to a model call / chat send on this run. -/
structure RenderInput where
  mode : String
  picture : Option (Option Image)
  picClicked : Bool
  uploaded : Option (Option Image)
  upClicked : Bool
  selected_shape : String
  chatPrompt : Option String
  api : CallResult
  chatApi : CallResult

/-- Dispatch on the radio mode (lines 274, 279, 289, 298, 313). -/
def renderBranch (inp : RenderInput) (s : SessionState) : List Ev × Bool :=
  if inp.mode != "Chatbot" then
    if inp.mode == "Webcam" then
      webcamBranch inp.picture inp.picClicked inp.api
    else if inp.mode == "Upload Image" then
      uploadBranch inp.uploaded inp.upClicked inp.api
    else if inp.mode == "Manual Input" then
      manualBranch inp.selected_shape inp.api
    else ([], false)
  else chatbotBranch s inp.chatPrompt inp.chatApi

/-- One script re-run over the session state: the state afterwards, the
events executed, and whether an uncaught exception aborted the run. -/
def renderPass (inp : RenderInput) (s : SessionState) :
    SessionState × List Ev × Bool :=
  let r := renderBranch inp s
  (applyEvents s r.1, r.1, r.2)

/-- Elements written to the page, in script order. `markdown` tags whose
content carries no claim-relevant data (CSS block, navbar, title) are
recorded by a fixed tag name only. -/
inductive UiElem where
  | header (s : String)
  | text (s : String)
  | button (label : String)
  | warning (s : String)
  | errorBox (s : String)
  | markdown (s : String)
  | chatMsg (role content : String)
  | widget (name : String)
  | imageView
  | exceptionBox
deriving DecidableEq, Repr

/-- The analysis panel markdown (line 310). -/
def analysisPanel (s : SessionState) : String :=
  "**Analysis Result:**\n```\n" ++ s.analysis_text ++ "\n```"

/-- Column-1 widgets of the active non-chat branch. -/
def col1Elems (inp : RenderInput) : List UiElem :=
  if inp.mode == "Webcam" then
    [.text "Position your face in the frame and click the button below.",
     .widget "camera_input"]
    ++ (match inp.picture with
        | none => []
        | some _ =>
            [.text "Photo Captured! Click 'Analyze Photo' to proceed.",
             .button "Analyze Photo"])
  else if inp.mode == "Upload Image" then
    [.widget "file_uploader"]
    ++ (match inp.uploaded with
        | none => []
        | some _ => [.imageView, .button "Analyze Uploaded Image"])
  else if inp.mode == "Manual Input" then
    [.widget "selectbox"]
  else []

/-- Page output of the mode-dependent part of one run (lines 266-341):
the radio, then either the two analysis columns (column 2 shows the
analysis panel over the post-branch state; on a crashed run the panel is
never reached and the framework shows an exception box instead), or the
chat surface (transcript after lazy init, then the new user/assistant
messages of this run). -/
def renderElems (inp : RenderInput) (s : SessionState) : List UiElem :=
  let r := renderPass inp s
  [.widget "radio"] ++
  (if inp.mode != "Chatbot" then
    [.header "Your Input"] ++ col1Elems inp
    ++ (if r.2.2 then [.exceptionBox]
        else [.header "AI Analysis", .markdown (analysisPanel r.1)])
  else
    let sInit := applyEvents s (chatInitEvents s)
    [.header "Conversational AI Advisor"]
    ++ sInit.messages.map (fun m => .chatMsg m.role m.content)
    ++ [.widget "chat_input"]
    ++ (match inp.chatPrompt with
        | none => []
        | some p =>
          if p == "" then []
          else
            [.chatMsg "user" p]
            ++ (match inp.chatApi with
                | .success reply => [.chatMsg "assistant" reply]
                | .failure _ => [.exceptionBox])))

/-- Outcome of an external lookup that may raise (`st.secrets.get`). -/
inductive ExtLookup where
  | ok (v : Option String)
  | raises (msg : String)
deriving DecidableEq, Repr

/-- Process environment at startup: the `GEMINI_API_KEY` environment
variable, the secret-store lookup outcome, and the message of the
exception the external configure call raises when it fails. -/
structure StartupEnv where
  envKey : Option String
  secretsKey : ExtLookup
  configMsg : String

/-- Modelled from the spec: the external `genai.configure` call (the Model
Gateway credential configuration; the library is not part of this
repository) raises an exception exactly when no credential is resolvable:
"the process aborts startup entirely if no credential is resolvable
(fatal, not retried)". -/
def configureRaises (api_key : Option String) : Bool :=
  !(truthy api_key)

/-- The fatal message of line 186. -/
def fatalMsg (e : String) : String :=
  "FATAL ERROR: Could not configure Gemini API. Please set your GEMINI_API_KEY. Error: " ++ e

/-- Result of the startup configuration block. -/
inductive StartupResult where
  | halted (err : String)
  | started
deriving DecidableEq, Repr

/-- The Gemini configuration block (lines 181-187): resolve the key as
`os.getenv(...) or st.secrets.get(...)` (the secret store is consulted
only when the environment value is falsy, and may itself raise), then
configure; any exception is caught, the fatal error is shown, and
`st.stop()` halts the run. -/
def startup (env : StartupEnv) : StartupResult :=
  match (if truthy env.envKey then ExtLookup.ok env.envKey else env.secretsKey) with
  | .raises msg => .halted (fatalMsg msg)
  | .ok v =>
      let key := pyOr env.envKey v
      if configureRaises key then .halted (fatalMsg env.configMsg)
      else .started

/-- One full script run from the top: page config and CSS are emitted
first, then the configuration block; a halted startup shows the fatal
error and stops (nothing else renders, no event runs), otherwise the
session-state defaults are installed and the page body runs. -/
def scriptRun (env : StartupEnv) (raw : RawSession) (inp : RenderInput) :
    List UiElem × (List Ev × Bool) :=
  match startup env with
  | .halted err => ([.markdown "styleBlock", .errorBox err], ([], false))
  | .started =>
      let s := initSession raw
      ([.markdown "styleBlock", .markdown "navbar", .markdown "title",
        .text "---"] ++ renderElems inp s,
       renderBranch inp s)

/-- True of a `setChat` event. -/
def isSetChat : Ev → Bool
  | .setChat _ => true
  | _ => false

/-- True of a `setMessages` event. -/
def isSetMessages : Ev → Bool
  | .setMessages _ => true
  | _ => false

/-- True of a `setAnalysis` event. -/
def isSetAnalysis : Ev → Bool
  | .setAnalysis _ => true
  | _ => false

/-- True of a `remoteCall` event (a `model.generate_content` invocation). -/
def isRemoteCall : Ev → Bool
  | .remoteCall _ _ => true
  | _ => false

/-- True of a `spawnWorker` event. -/
def isSpawn : Ev → Bool
  | .spawnWorker => true
  | _ => false

/-- True of an event touching the chat handle or the transcript. -/
def isChatWrite : Ev → Bool
  | .setChat _ => true
  | .setMessages _ => true
  | .appendMessage _ => true
  | .chatSend _ _ => true
  | _ => false

/-- True of a warning element. -/
def isWarningElem : UiElem → Bool
  | .warning _ => true
  | _ => false

/-- True of a button element. -/
def isButtonElem : UiElem → Bool
  | .button _ => true
  | _ => false

/-- The final analysis string of `analyze_image_with_gemini` as a function
of the call outcome. -/
def analysisFinal : CallResult → String
  | .success t => pyStrip t
  | .failure e => "API Call Failed: " ++ e

/-- The final analysis string of `get_suggestion_for_shape` as a function
of the shape and the call outcome. -/
def suggestionFinal (shape : String) : CallResult → String
  | .success t => "Your Face Shape Is: " ++ shape ++ "\n" ++ pyStrip t
  | .failure e => "API Call Failed: " ++ e

/-- A run input with every widget empty and no click. -/
def emptyInput (mode : String) : RenderInput :=
  ⟨mode, none, false, none, false, "Select a Shape", none,
   .success "", .success ""⟩

/-- No credential is resolvable: the environment value is falsy and the
secret store raises or yields a falsy value. -/
def credsUnresolvable (env : StartupEnv) : Bool :=
  !(truthy env.envKey) &&
  (match env.secretsKey with
   | .raises _ => true
   | .ok v => !(truthy v))

/-- True when this run triggers an action: an Analyze click with a photo
or file present, a selected shape in Manual Input, or, in Chatbot mode, a
submitted prompt or a still-uninitialised chat session. -/
def triggersAction (inp : RenderInput) (s : SessionState) : Bool :=
  if inp.mode == "Webcam" then inp.picture.isSome && inp.picClicked
  else if inp.mode == "Upload Image" then inp.uploaded.isSome && inp.upClicked
  else if inp.mode == "Manual Input" then inp.selected_shape != "Select a Shape"
  else if inp.mode == "Chatbot" then truthy inp.chatPrompt || s.chat.isNone
  else false

/-- C1 counterexample. The chat flow does not catch remote failures: with
an initialised chat session, a raising `send_message` aborts the run
(crashed = true) and AnalysisResult is left at its old value, not set to
an `API Call Failed` string. -/
theorem chat_send_failure_crashes :
    (renderPass
        ⟨"Chatbot", none, false, none, false, "Select a Shape", some "hi",
         .success "", .failure "boom"⟩
        (applyEvents initState (chatInitEvents initState))).2.2 = true
  ∧ (renderPass
        ⟨"Chatbot", none, false, none, false, "Select a Shape", some "hi",
         .success "", .failure "boom"⟩
        (applyEvents initState (chatInitEvents initState))).1.analysis_text
      = "Analysis will appear here." := by
  decide

/-- C1 amended. Image analysis and shape recommendation catch any remote
failure and convert it to the string `API Call Failed: <detail>` (the
detail being the text of the exception), and the run continues; the chat
flow, however, does not guard `send_message`, so a raising call there
aborts the render cycle. -/
theorem api_failure_converted_except_chat (img : Image) (err : String)
    (shape : String) (p : String) (s : SessionState) :
    (analyze_image_with_gemini (some img) (.failure err)).2 = false
  ∧ (applyEvents s (analyze_image_with_gemini (some img) (.failure err)).1).analysis_text
      = "API Call Failed: " ++ err
  ∧ (get_suggestion_for_shape shape (.failure err)).2 = false
  ∧ (applyEvents s (get_suggestion_for_shape shape (.failure err)).1).analysis_text
      = "API Call Failed: " ++ err
  ∧ (p ≠ "" → (chatbotBranch s (some p) (.failure err)).2 = true) := by
  refine ⟨rfl, rfl, rfl, rfl, fun hp => ?_⟩
  simp [chatbotBranch, hp]

/-- C1 amended witness at concrete inputs. -/
theorem api_failure_converted_except_chat_witness :
    ("hi" : String) ≠ ""
  ∧ ((analyze_image_with_gemini (some ⟨[7]⟩) (.failure "boom")).2 = false
      ∧ (applyEvents initState
          (analyze_image_with_gemini (some ⟨[7]⟩) (.failure "boom")).1).analysis_text
        = "API Call Failed: " ++ "boom"
      ∧ (get_suggestion_for_shape "Round" (.failure "boom")).2 = false
      ∧ (applyEvents initState
          (get_suggestion_for_shape "Round" (.failure "boom")).1).analysis_text
        = "API Call Failed: " ++ "boom"
      ∧ (("hi" : String) ≠ "" →
          (chatbotBranch initState (some "hi") (.failure "boom")).2 = true)) :=
  ⟨by decide, api_failure_converted_except_chat ⟨[7]⟩ "boom" "Round" "hi" initState⟩

/-- C2. For shape `Round`, the recommendation prompt passed on the remote
call contains the substring `Round`, requests a response in 15 words or
less, and, given the reply `WeAR AI's Suggestion: try round frames`, the
final AnalysisResult is exactly the two-line string of the claim. -/
theorem round_suggestion_correct (s : SessionState) :
    strContains (suggestionPrompt "Round") "Round" = true
  ∧ strContains (suggestionPrompt "Round") "15 words or less" = true
  ∧ Ev.remoteCall none (suggestionPrompt "Round")
      ∈ (get_suggestion_for_shape "Round"
          (.success "WeAR AI's Suggestion: try round frames")).1
  ∧ (applyEvents s
      (get_suggestion_for_shape "Round"
        (.success "WeAR AI's Suggestion: try round frames")).1).analysis_text
    = "Your Face Shape Is: Round\nWeAR AI's Suggestion: try round frames" := by
  refine ⟨rfl, rfl, ?_, rfl⟩
  simp [get_suggestion_for_shape]

set_option maxRecDepth 100000 in
/-- C3 counterexample. The string written synchronously before the remote
call is `Analyzing with AI...` (webcam/upload) or
`Getting suggestion for <shape> face...` (manual); no flow ever writes
the string `Analyzing…` claimed by the spec. -/
theorem progress_string_not_analyzing :
    (analyze_image_with_gemini (some ⟨[5]⟩) (.success "ok")).1
      = [.setAnalysis "Analyzing with AI...",
         .remoteCall (some ⟨[5]⟩) analysisPrompt,
         .setAnalysis "ok"]
  ∧ (analyze_image_with_gemini (some ⟨[5]⟩) (.success "ok")).1.countP
      (fun e => e == .setAnalysis "Analyzing…") = 0
  ∧ (manualBranch "Round" (.success "ok")).1.head?
      = some (.setAnalysis "Getting suggestion for Round face...")
  ∧ (manualBranch "Round" (.success "ok")).1.countP
      (fun e => e == .setAnalysis "Analyzing…") = 0 := by
  decide

/-- C3 amended. Triggering analysis with a valid decoded image writes a
progress string synchronously before the remote call begins — namely
`Analyzing with AI...` in webcam and upload modes, and
`Getting suggestion for <shape> face...` in manual mode — and after the
call resolves writes the final value (the formatted success text or the
`API Call Failed` string). -/
theorem analysis_progress_then_final (img : Image) (api : CallResult)
    (shape : String) :
    webcamBranch (some (some img)) true api
      = analyze_image_with_gemini (some img) api
  ∧ uploadBranch (some (some img)) true api
      = analyze_image_with_gemini (some img) api
  ∧ analyze_image_with_gemini (some img) api
      = ([.setAnalysis "Analyzing with AI...",
          .remoteCall (some img) analysisPrompt,
          .setAnalysis (analysisFinal api)], false)
  ∧ (shape ≠ "Select a Shape" →
      manualBranch shape api
        = ([.setAnalysis ("Getting suggestion for " ++ shape ++ " face..."),
            .remoteCall none (suggestionPrompt shape),
            .setAnalysis (suggestionFinal shape api)], false)) := by
  refine ⟨rfl, rfl, ?_, fun hs => ?_⟩
  · cases api <;> rfl
  · cases api <;> simp [manualBranch, get_suggestion_for_shape, hs,
      analysisFinal, suggestionFinal]

/-- C3 amended witness at concrete inputs. -/
theorem analysis_progress_then_final_witness :
    ("Round" : String) ≠ "Select a Shape"
  ∧ (webcamBranch (some (some ⟨[5]⟩)) true (.success "ok")
      = analyze_image_with_gemini (some ⟨[5]⟩) (.success "ok")
    ∧ uploadBranch (some (some ⟨[5]⟩)) true (.success "ok")
      = analyze_image_with_gemini (some ⟨[5]⟩) (.success "ok")
    ∧ analyze_image_with_gemini (some ⟨[5]⟩) (.success "ok")
      = ([.setAnalysis "Analyzing with AI...",
          .remoteCall (some ⟨[5]⟩) analysisPrompt,
          .setAnalysis (analysisFinal (.success "ok"))], false)
    ∧ (("Round" : String) ≠ "Select a Shape" →
        manualBranch "Round" (.success "ok")
          = ([.setAnalysis ("Getting suggestion for " ++ "Round" ++ " face..."),
              .remoteCall none (suggestionPrompt "Round"),
              .setAnalysis (suggestionFinal "Round" (.success "ok"))], false))) :=
  ⟨by decide, analysis_progress_then_final ⟨[5]⟩ (.success "ok") "Round"⟩

/-- C4 counterexample. With a file present that fails to decode, clicking
Analyze does leave AnalysisResult unchanged and issues no remote call,
but no visible warning is shown anywhere: instead the run crashes with an
uncaught exception; and with no image present the Analyze control is not
rendered at all, again with no warning. -/
theorem no_warning_on_missing_or_bad_image :
    (renderElems
        ⟨"Upload Image", none, false, some none, true, "Select a Shape", none,
         .success "x", .success "y"⟩ initState).countP isWarningElem = 0
  ∧ (renderPass
        ⟨"Upload Image", none, false, some none, true, "Select a Shape", none,
         .success "x", .success "y"⟩ initState).2.2 = true
  ∧ (renderPass
        ⟨"Upload Image", none, false, some none, true, "Select a Shape", none,
         .success "x", .success "y"⟩ initState).1 = initState
  ∧ (renderElems (emptyInput "Webcam") initState).countP isWarningElem = 0
  ∧ UiElem.button "Analyze Photo" ∉ renderElems (emptyInput "Webcam") initState := by
  decide

/-- C4 amended. When no photo or file is present the Analyze button is not
rendered at all, so no analysis can be requested, the session state is
untouched and the remote model is never invoked — but no warning is
shown; when a present file fails to decode and Analyze is clicked,
AnalysisResult is again unchanged and no remote call is issued, but
instead of a refusal with a warning the render cycle aborts with an
uncaught exception. -/
theorem missing_image_no_call_no_warning (s : SessionState) (api : CallResult)
    (b : Bool) :
    webcamBranch none b api = ([], false)
  ∧ uploadBranch none b api = ([], false)
  ∧ UiElem.button "Analyze Photo" ∉ col1Elems (emptyInput "Webcam")
  ∧ UiElem.button "Analyze Uploaded Image" ∉ col1Elems (emptyInput "Upload Image")
  ∧ webcamBranch (some none) true api = ([], true)
  ∧ uploadBranch (some none) true api = ([], true)
  ∧ (renderElems (emptyInput "Webcam") s).countP isWarningElem = 0
  ∧ (renderElems (emptyInput "Upload Image") s).countP isWarningElem = 0
  ∧ (renderElems
        ⟨"Webcam", some none, true, none, false, "Select a Shape", none,
         api, .success ""⟩ s).countP isWarningElem = 0
  ∧ (renderElems
        ⟨"Upload Image", none, false, some none, true, "Select a Shape", none,
         api, .success ""⟩ s).countP isWarningElem = 0 := by
  refine ⟨rfl, rfl, by decide, by decide, rfl, rfl, rfl, rfl, rfl, rfl⟩

/-- C5. Chat-session creation is idempotent within one UI session: after a
first entry into the Chatbot flow from a session without a chat handle,
the transcript is exactly one assistant greeting and the handle is set;
any second entry (with or without a prompt) installs no second handle and
never rewrites the seed transcript, and a plain second entry leaves the
session state entirely unchanged. -/
theorem chat_init_idempotent (s : SessionState) (p2 : Option String)
    (capi1 capi2 : CallResult) (h : s.chat = none) :
    (renderPass { emptyInput "Chatbot" with chatApi := capi1 } s).1.messages
      = [greetingMsg]
  ∧ (renderPass { emptyInput "Chatbot" with chatApi := capi1 } s).1.chat
      = some initialChat
  ∧ (chatbotBranch (renderPass { emptyInput "Chatbot" with chatApi := capi1 } s).1
      p2 capi2).1.countP isSetChat = 0
  ∧ (chatbotBranch (renderPass { emptyInput "Chatbot" with chatApi := capi1 } s).1
      p2 capi2).1.countP isSetMessages = 0
  ∧ (renderPass { emptyInput "Chatbot" with chatApi := capi2 }
      ((renderPass { emptyInput "Chatbot" with chatApi := capi1 } s).1)).1
      = (renderPass { emptyInput "Chatbot" with chatApi := capi1 } s).1 := by
  have hs1 : (renderPass { emptyInput "Chatbot" with chatApi := capi1 } s).1
      = { s with chat := some initialChat, messages := [greetingMsg] } := by
    simp [renderPass, renderBranch, emptyInput, chatbotBranch, chatInitEvents, h,
      applyEvents, applyEv]
  rw [hs1]
  refine ⟨rfl, rfl, ?_, ?_, ?_⟩
  · rcases p2 with _ | p
    · rfl
    · by_cases hp : p = ""
      · simp [chatbotBranch, chatInitEvents, hp]
      · cases capi2 <;>
          simp [chatbotBranch, chatInitEvents, hp, isSetChat, List.countP_cons]
  · rcases p2 with _ | p
    · rfl
    · by_cases hp : p = ""
      · simp [chatbotBranch, chatInitEvents, hp]
      · cases capi2 <;>
          simp [chatbotBranch, chatInitEvents, hp, isSetMessages, List.countP_cons]
  · simp [renderPass, renderBranch, emptyInput, chatbotBranch, chatInitEvents,
      applyEvents]

/-- C5 witness at concrete inputs. -/
theorem chat_init_idempotent_witness :
    initState.chat = none
  ∧ ((renderPass { emptyInput "Chatbot" with chatApi := .success "a" } initState).1.messages
      = [greetingMsg]
    ∧ (renderPass { emptyInput "Chatbot" with chatApi := .success "a" } initState).1.chat
      = some initialChat
    ∧ (chatbotBranch (renderPass { emptyInput "Chatbot" with chatApi := .success "a" } initState).1
        (some "hi") (.failure "b")).1.countP isSetChat = 0
    ∧ (chatbotBranch (renderPass { emptyInput "Chatbot" with chatApi := .success "a" } initState).1
        (some "hi") (.failure "b")).1.countP isSetMessages = 0
    ∧ (renderPass { emptyInput "Chatbot" with chatApi := .failure "b" }
        ((renderPass { emptyInput "Chatbot" with chatApi := .success "a" } initState).1)).1
        = (renderPass { emptyInput "Chatbot" with chatApi := .success "a" } initState).1) :=
  ⟨rfl, chat_init_idempotent initState (some "hi") (.success "a") (.failure "b") rfl⟩

set_option maxRecDepth 100000 in
/-- C6 counterexample. The render pass is not pure: in Manual Input mode
with `Round` selected, a single pass over an unchanged session state
mutates the session state and issues a remote call. -/
theorem manual_render_not_pure :
    (renderPass
        ⟨"Manual Input", none, false, none, false, "Round", none,
         .success "sug", .success ""⟩ initState).1 ≠ initState
  ∧ (renderPass
        ⟨"Manual Input", none, false, none, false, "Round", none,
         .success "sug", .success ""⟩ initState).2.1.countP isRemoteCall = 1 := by
  decide

/-- C6 amended. Re-rendering is idempotent only for passes that trigger no
action (no Analyze click with an image present, no selected shape in
Manual Input, and in Chatbot mode no submitted prompt and an already
initialised session): such a pass executes no event, leaves the session
state unchanged, and a repeated pass produces an identical element list;
a Manual Input pass with a shape selected, by contrast, issues a remote
call and overwrites the analysis text on every render. -/
theorem render_idempotent_without_trigger (inp : RenderInput) (s : SessionState)
    (h : triggersAction inp s = false) :
    renderBranch inp s = ([], false)
  ∧ (renderPass inp s).1 = s
  ∧ renderElems inp ((renderPass inp s).1) = renderElems inp s := by
  have hb : renderBranch inp s = ([], false) := by
    unfold triggersAction at h
    by_cases h1 : inp.mode = "Chatbot"
    · rw [h1] at h
      simp at h
      obtain ⟨hp, hc⟩ := h
      rcases hcs : s.chat with _ | c
      · rw [hcs] at hc; simp at hc
      · rcases hcp : inp.chatPrompt with _ | p
        · simp [renderBranch, h1, chatbotBranch, chatInitEvents, hcs, hcp]
        · rw [hcp] at hp
          simp [truthy] at hp
          simp [renderBranch, h1, chatbotBranch, chatInitEvents, hcs, hcp, hp]
    · by_cases h2 : inp.mode = "Webcam"
      · rw [h2] at h
        simp at h
        rcases hpic : inp.picture with _ | d
        · simp [renderBranch, h2, webcamBranch, hpic]
        · rw [hpic] at h
          simp at h
          simp [renderBranch, h2, webcamBranch, hpic, h]
      · by_cases h3 : inp.mode = "Upload Image"
        · rw [h3] at h
          simp at h
          rcases hup : inp.uploaded with _ | d
          · simp [renderBranch, h3, uploadBranch, hup]
          · rw [hup] at h
            simp at h
            simp [renderBranch, h3, uploadBranch, hup, h]
        · by_cases h4 : inp.mode = "Manual Input"
          · rw [h4] at h
            simp at h
            simp [renderBranch, h4, manualBranch, h]
          · simp [renderBranch, h1, h2, h3, h4]
  have hst : (renderPass inp s).1 = s := by
    simp [renderPass, hb, applyEvents]
  exact ⟨hb, hst, by rw [hst]⟩

/-- C6 amended witness at concrete inputs. -/
theorem render_idempotent_without_trigger_witness :
    triggersAction (emptyInput "Webcam") initState = false
  ∧ (renderBranch (emptyInput "Webcam") initState = ([], false)
    ∧ (renderPass (emptyInput "Webcam") initState).1 = initState
    ∧ renderElems (emptyInput "Webcam") ((renderPass (emptyInput "Webcam") initState).1)
        = renderElems (emptyInput "Webcam") initState) :=
  ⟨by decide, render_idempotent_without_trigger (emptyInput "Webcam") initState (by decide)⟩

set_option maxRecDepth 100000 in
/-- C7 counterexample. Manual Input mode exposes no Analyze button at all,
and a plain re-render with a shape selected issues a remote call without
any user-triggered action. -/
theorem manual_mode_has_no_button :
    (col1Elems
        ⟨"Manual Input", none, false, none, false, "Round", none,
         .success "sug", .success ""⟩).countP isButtonElem = 0
  ∧ (renderBranch
        ⟨"Manual Input", none, false, none, false, "Round", none,
         .success "sug", .success ""⟩ initState).1.countP isRemoteCall = 1 := by
  decide

/-- C7 amended. Webcam and Upload modes each expose exactly one Analyze
button (rendered only while an image is present) and issue a remote call
only when it is clicked with a decodable image; Manual Input mode exposes
no Analyze button, and issues a remote call on every render pass in which
a shape other than the placeholder is selected. -/
theorem button_gated_calls_except_manual (d : Option Image)
    (api : CallResult) (shape : String) :
    (col1Elems { emptyInput "Webcam" with picture := some d }).countP isButtonElem = 1
  ∧ (col1Elems (emptyInput "Webcam")).countP isButtonElem = 0
  ∧ (col1Elems { emptyInput "Upload Image" with uploaded := some d }).countP isButtonElem = 1
  ∧ (col1Elems (emptyInput "Upload Image")).countP isButtonElem = 0
  ∧ (col1Elems { emptyInput "Manual Input" with selected_shape := shape }).countP isButtonElem = 0
  ∧ webcamBranch (some d) false api = ([], false)
  ∧ uploadBranch (some d) false api = ([], false)
  ∧ (webcamBranch (some d) true api).1.countP isRemoteCall
      = (if d.isSome then 1 else 0)
  ∧ (uploadBranch (some d) true api).1.countP isRemoteCall
      = (if d.isSome then 1 else 0)
  ∧ (manualBranch shape api).1.countP isRemoteCall
      = (if shape != "Select a Shape" then 1 else 0) := by
  refine ⟨rfl, rfl, rfl, rfl, rfl, rfl, rfl, ?_, ?_, ?_⟩
  · cases d <;> cases api <;> rfl
  · cases d <;> cases api <;> rfl
  · by_cases hs : shape = "Select a Shape"
    · simp [manualBranch, hs]
    · cases api <;>
        simp [manualBranch, get_suggestion_for_shape, hs, isRemoteCall,
          List.countP_cons]

/-- C8. When no credential is resolvable at process start (the environment
value is falsy and the secret store raises or yields a falsy value), the
configuration block halts the run with the visible fatal error: the page
carries only the style block and the error box — no input surface, no
widgets — and no event of any analysis or chat flow executes. The
external configure call is modelled from the spec as raising exactly when
no credential is resolvable. -/
theorem startup_halts_without_credential (env : StartupEnv) (raw : RawSession)
    (inp : RenderInput) (h : credsUnresolvable env = true) :
    ∃ msg, startup env = .halted msg
      ∧ scriptRun env raw inp
          = ([.markdown "styleBlock", .errorBox msg], ([], false)) := by
  unfold credsUnresolvable at h
  rw [Bool.and_eq_true] at h
  obtain ⟨h1, h2⟩ := h
  rw [Bool.not_eq_eq_eq_not, Bool.not_true] at h1
  rcases hsk : env.secretsKey with v | m
  · rw [hsk] at h2
    simp at h2
    refine ⟨fatalMsg env.configMsg, ?_, ?_⟩
    · simp [startup, h1, hsk, pyOr, configureRaises, h2]
    · simp [scriptRun, startup, h1, hsk, pyOr, configureRaises, h2]
  · refine ⟨fatalMsg m, ?_, ?_⟩
    · simp [startup, h1, hsk]
    · simp [scriptRun, startup, h1, hsk]

/-- C8 witness at concrete inputs. -/
theorem startup_halts_without_credential_witness :
    credsUnresolvable ⟨none, .ok none, "nokey"⟩ = true
  ∧ ∃ msg, startup ⟨none, .ok none, "nokey"⟩ = .halted msg
      ∧ scriptRun ⟨none, .ok none, "nokey"⟩ ⟨none, none, none⟩ (emptyInput "Webcam")
          = ([.markdown "styleBlock", .errorBox msg], ([], false)) :=
  ⟨by decide,
   startup_halts_without_credential ⟨none, .ok none, "nokey"⟩ ⟨none, none, none⟩
     (emptyInput "Webcam") (by decide)⟩

set_option maxRecDepth 100000 in
/-- C9 counterexample. The webcam Analyze action spawns no worker at all:
its event trace contains no spawn event, the remote call occurs in the
synchronous trace of the render pass itself, and the result is already
written to the session state when the pass returns. -/
theorem webcam_analysis_has_no_worker :
    (renderBranch
        ⟨"Webcam", some (some ⟨[9]⟩), true, none, false, "Select a Shape", none,
         .success "ok", .success ""⟩ initState).1.countP isSpawn = 0
  ∧ (renderBranch
        ⟨"Webcam", some (some ⟨[9]⟩), true, none, false, "Select a Shape", none,
         .success "ok", .success ""⟩ initState).1.countP isRemoteCall = 1
  ∧ (renderPass
        ⟨"Webcam", some (some ⟨[9]⟩), true, none, false, "Select a Shape", none,
         .success "ok", .success ""⟩ initState).1.analysis_text = "ok" := by
  decide

/-- C9 amended. The webcam Analyze action performs the remote call
synchronously inside the render pass (blocking it): the trace is exactly
progress write, remote call, result write, with no worker spawned, and
the final analysis text is already in the session state when the pass
completes. -/
theorem webcam_analysis_synchronous (img : Image) (api : CallResult)
    (s : SessionState) :
    webcamBranch (some (some img)) true api
      = ([.setAnalysis "Analyzing with AI...",
          .remoteCall (some img) analysisPrompt,
          .setAnalysis (analysisFinal api)], false)
  ∧ (webcamBranch (some (some img)) true api).1.countP isSpawn = 0
  ∧ (applyEvents s (webcamBranch (some (some img)) true api).1).analysis_text
      = analysisFinal api := by
  cases api <;> exact ⟨rfl, rfl, rfl⟩

/-- C10. Session-state fields are updated disjointly: the two analysis
flows execute no event touching the chat handle or the transcript (so
both are unchanged by replay), and the chat flow executes no write to the
analysis text (so the latest analysis result survives chat interactions
unchanged). -/
theorem flows_write_disjoint_fields (d : Option Image) (api : CallResult)
    (shape : String) (s : SessionState) (p : Option String) (capi : CallResult) :
    (applyEvents s (analyze_image_with_gemini d api).1).messages = s.messages
  ∧ (applyEvents s (analyze_image_with_gemini d api).1).chat = s.chat
  ∧ (analyze_image_with_gemini d api).1.countP isChatWrite = 0
  ∧ (applyEvents s (get_suggestion_for_shape shape api).1).messages = s.messages
  ∧ (applyEvents s (get_suggestion_for_shape shape api).1).chat = s.chat
  ∧ (get_suggestion_for_shape shape api).1.countP isChatWrite = 0
  ∧ (applyEvents s (chatbotBranch s p capi).1).analysis_text = s.analysis_text
  ∧ (chatbotBranch s p capi).1.countP isSetAnalysis = 0 := by
  refine ⟨?_, ?_, ?_, ?_, ?_, ?_, ?_, ?_⟩
  · cases d <;> cases api <;> rfl
  · cases d <;> cases api <;> rfl
  · cases d <;> cases api <;> rfl
  · cases api <;> rfl
  · cases api <;> rfl
  · cases api <;> rfl
  · rcases hcs : s.chat with _ | c <;> rcases p with _ | q
    · simp [chatbotBranch, chatInitEvents, hcs, applyEvents, applyEv]
    · by_cases hq : q = ""
      · simp [chatbotBranch, chatInitEvents, hcs, hq, applyEvents, applyEv]
      · cases capi <;>
          simp [chatbotBranch, chatInitEvents, hcs, hq, applyEvents, applyEv]
    · simp [chatbotBranch, chatInitEvents, hcs, applyEvents, applyEv]
    · by_cases hq : q = ""
      · simp [chatbotBranch, chatInitEvents, hcs, hq, applyEvents, applyEv]
      · cases capi <;>
          simp [chatbotBranch, chatInitEvents, hcs, hq, applyEvents, applyEv]
  · rcases hcs : s.chat with _ | c <;> rcases p with _ | q
    · simp [chatbotBranch, chatInitEvents, hcs, isSetAnalysis]
    · by_cases hq : q = ""
      · simp [chatbotBranch, chatInitEvents, hcs, hq, isSetAnalysis]
      · cases capi <;>
          simp [chatbotBranch, chatInitEvents, hcs, hq, isSetAnalysis,
            List.countP_cons]
    · simp [chatbotBranch, chatInitEvents, hcs, isSetAnalysis]
    · by_cases hq : q = ""
      · simp [chatbotBranch, chatInitEvents, hcs, hq, isSetAnalysis]
      · cases capi <;>
          simp [chatbotBranch, chatInitEvents, hcs, hq, isSetAnalysis,
            List.countP_cons]

end WearApp
